import Mathlib

/-!
Shallow embedding of the voice-driven turn-by-turn navigation core of the
repository (main script, `src/unnamed/part_002`), together with theorems
settling the specification claims about it.

Numbers that the JavaScript source manipulates as IEEE doubles are modelled
as rationals (`ℚ`); strings as Lean `String`.  Each definition is translated
from the source function named in its doc comment.
-/

namespace NavSpec

/-! ## LocationFilter: `onLocationFound` (src/unnamed/part_002, lines 368-624)

The source keeps `let bestGPSLocation = null; // Store { lat, lng, accuracy }`
(line 21) and `const MAX_ACCEPTABLE_ACCURACY = 500` (line 22).  The only
assignment to `bestGPSLocation` in the whole file is line 407, inside
`onLocationFound`. -/

/-- One raw GPS sample as consumed by `onLocationFound`:
`lat = e.latlng.lat`, `lng = e.latlng.lng`, `accuracy = e.accuracy || 50000`. -/
structure GpsFix where
  lat : ℚ
  lng : ℚ
  accuracy : ℚ
  deriving DecidableEq, Repr

/-- The retained best fix `bestGPSLocation = { lat, lng, accuracy }`. -/
structure BestFix where
  lat : ℚ
  lng : ℚ
  accuracy : ℚ
  deriving DecidableEq, Repr

/-- `const MAX_ACCEPTABLE_ACCURACY = 500` (line 22). -/
def MAX_ACCEPTABLE_ACCURACY : ℚ := 500

/-- Line 379: `const isNearSurakarta = lat > -7.6 && lat < -7.5 && lng > 110.8 && lng < 110.9;`. -/
def isNearSurakarta (lat lng : ℚ) : Bool :=
  lat > -76/10 && lat < -75/10 && lng > 1108/10 && lng < 1109/10

/-- Line 380: `const isLowAccuracy = accuracy > 10000;`. -/
def isLowAccuracy (accuracy : ℚ) : Bool :=
  accuracy > 10000

/-- Line 381: `const isUnacceptableAccuracy = accuracy > MAX_ACCEPTABLE_ACCURACY;`. -/
def isUnacceptableAccuracy (accuracy : ℚ) : Bool :=
  accuracy > MAX_ACCEPTABLE_ACCURACY

/-- Outcome of the guard section of `onLocationFound` (lines 378-410):
`blocked` records the early `return` at lines 392/400 (the fix is rejected and
processing stops); `lowConfidence` records that the status element is set to
`"⚠️ Location may not be accurate"` (lines 421-422, shown exactly when
`isNearSurakarta && isLowAccuracy`); `best` is the value of `bestGPSLocation`
after the guard section. -/
structure FixOutcome where
  best : Option BestFix
  blocked : Bool
  lowConfidence : Bool
  deriving DecidableEq, Repr

/-- The guard section of `onLocationFound` (lines 378-410), translated
branch-for-branch.  `bestGPSLocation` is assigned only at line 407, in the
final `else` branch, and only when `!bestGPSLocation || accuracy <
bestGPSLocation.accuracy`. -/
def onLocationFoundStep (best : Option BestFix) (f : GpsFix) : FixOutcome :=
  if isNearSurakarta f.lat f.lng && isLowAccuracy f.accuracy then
    -- lines 384-393: block only if an existing best fix is strictly better
    match best with
    | some b =>
      if b.accuracy < f.accuracy then
        { best := some b, blocked := true, lowConfidence := true }
      else
        { best := some b, blocked := false, lowConfidence := true }
    | none => { best := none, blocked := false, lowConfidence := true }
  else if isUnacceptableAccuracy f.accuracy then
    -- lines 394-401: same blocking rule, no best-fix update either way
    match best with
    | some b =>
      if b.accuracy < f.accuracy then
        { best := some b, blocked := true, lowConfidence := false }
      else
        { best := some b, blocked := false, lowConfidence := false }
    | none => { best := none, blocked := false, lowConfidence := false }
  else
    -- lines 402-410: update best fix only on strict improvement (line 406)
    match best with
    | some b =>
      if f.accuracy < b.accuracy then
        { best := some ⟨f.lat, f.lng, f.accuracy⟩, blocked := false, lowConfidence := false }
      else
        { best := some b, blocked := false, lowConfidence := false }
    | none =>
      { best := some ⟨f.lat, f.lng, f.accuracy⟩, blocked := false, lowConfidence := false }

/-- The evolution of `bestGPSLocation` alone under one processed fix. -/
def processFix (best : Option BestFix) (f : GpsFix) : Option BestFix :=
  (onLocationFoundStep best f).best

/-- `bestGPSLocation` after a whole sequence of `locationfound` events. -/
def processFixes (best : Option BestFix) (fs : List GpsFix) : Option BestFix :=
  fs.foldl processFix best

/-- Case analysis of a single `onLocationFound` step on the retained best fix:
either `bestGPSLocation` is untouched, or it is replaced by the incoming fix
and then the incoming accuracy is strictly below the previous best. -/
lemma processFix_some_cases (b : BestFix) (f : GpsFix) :
    processFix (some b) f = some b ∨
      (processFix (some b) f = some ⟨f.lat, f.lng, f.accuracy⟩ ∧ f.accuracy < b.accuracy) := by
  unfold processFix onLocationFoundStep
  by_cases h1 : (isNearSurakarta f.lat f.lng && isLowAccuracy f.accuracy) = true
  · by_cases h2 : b.accuracy < f.accuracy <;> simp [h1, h2]
  · by_cases h3 : isUnacceptableAccuracy f.accuracy = true
    · by_cases h2 : b.accuracy < f.accuracy <;> simp [h1, h2, h3]
    · by_cases h2 : f.accuracy < b.accuracy <;> simp [h1, h2, h3]

/-- A fix is recorded as the new best only in the final `else` branch of
`onLocationFound`, where `isUnacceptableAccuracy` is false; hence any
retained best fix has accuracy at most `MAX_ACCEPTABLE_ACCURACY`. -/
lemma processFix_preserves_bound (best : Option BestFix) (f : GpsFix)
    (h : ∀ b ∈ best, b.accuracy ≤ MAX_ACCEPTABLE_ACCURACY) :
    ∀ b' ∈ processFix best f, b'.accuracy ≤ MAX_ACCEPTABLE_ACCURACY := by
  unfold processFix onLocationFoundStep
  by_cases h1 : (isNearSurakarta f.lat f.lng && isLowAccuracy f.accuracy) = true
  · cases best with
    | none => simp [h1]
    | some b =>
      by_cases h2 : b.accuracy < f.accuracy <;>
        simpa [h1, h2] using h b (by simp)
  · by_cases h3 : isUnacceptableAccuracy f.accuracy = true
    · cases best with
      | none => simp [h1, h3]
      | some b =>
        by_cases h2 : b.accuracy < f.accuracy <;>
          simpa [h1, h2, h3] using h b (by simp)
    · have hacc : f.accuracy ≤ MAX_ACCEPTABLE_ACCURACY := by
        have h3b := h3
        simp only [isUnacceptableAccuracy, decide_eq_true_eq, not_lt] at h3b
        exact h3b
      cases best with
      | none => simpa [h1, h3] using hacc
      | some b =>
        by_cases h2 : f.accuracy < b.accuracy
        · simpa [h1, h2, h3] using hacc
        · simpa [h1, h2, h3] using h b (by simp)

lemma processFixes_bound (fs : List GpsFix) :
    ∀ best, (∀ b ∈ best, b.accuracy ≤ MAX_ACCEPTABLE_ACCURACY) →
      ∀ b' ∈ processFixes best fs, b'.accuracy ≤ MAX_ACCEPTABLE_ACCURACY := by
  induction fs with
  | nil => intro best h; simpa [processFixes] using h
  | cons f fs ih =>
    intro best h
    have := ih (processFix best f) (processFix_preserves_bound best f h)
    simpa [processFixes] using this

/-- **C3.** For every sequence of GPS fixes processed by `onLocationFound`, the
retained `bestGPSLocation.accuracy` is non-increasing: the final best fix has
accuracy at most the initial one, and if the best fix was replaced at all, the
final accuracy is strictly lower.  (The source contains no fresh-fix path that
writes `bestGPSLocation`; line 407 is its only assignment.) -/
theorem bestFix_accuracy_nonincreasing (b : BestFix) (fs : List GpsFix) :
    ∃ b', processFixes (some b) fs = some b' ∧ b'.accuracy ≤ b.accuracy ∧
      (b' ≠ b → b'.accuracy < b.accuracy) := by
  induction fs generalizing b with
  | nil => exact ⟨b, rfl, le_refl _, fun h => absurd rfl h⟩
  | cons f fs ih =>
    have hstep : processFixes (some b) (f :: fs) = processFixes (processFix (some b) f) fs := rfl
    rcases processFix_some_cases b f with h | ⟨h, hlt⟩
    · rw [hstep, h]; exact ih b
    · rw [hstep, h]
      obtain ⟨b', hb', hle, _⟩ := ih ⟨f.lat, f.lng, f.accuracy⟩
      have hlt' : b'.accuracy < b.accuracy := lt_of_le_of_lt hle hlt
      exact ⟨b', hb', le_of_lt hlt', fun _ => hlt'⟩

/-- Closed witness for `bestFix_accuracy_nonincreasing` at a concrete input. -/
theorem bestFix_accuracy_nonincreasing_witness :
    ∃ b', processFixes (some ⟨0, 0, 300⟩) [⟨1, 1, 100⟩] = some b' ∧
      b'.accuracy ≤ (300 : ℚ) ∧ (b' ≠ ⟨0, 0, 300⟩ → b'.accuracy < 300) :=
  bestFix_accuracy_nonincreasing ⟨0, 0, 300⟩ [⟨1, 1, 100⟩]

/-- **C4.** (1) Every best fix reachable from the initial `null` has accuracy
at most `MAX_ACCEPTABLE_ACCURACY` (500 m).  (2) A fix inside the
default-location region with accuracy above the 10 km threshold is blocked
(early `return`) whenever a best fix exists, retaining it.  (3) With no best
fix yet, such a fix is not blocked but is flagged low-confidence.  (4) A fix
whose accuracy is not better than the existing best never replaces it. -/
theorem defaultLocation_lowAccuracy_rejection :
    (∀ fs b, processFixes none fs = some b → b.accuracy ≤ MAX_ACCEPTABLE_ACCURACY) ∧
    (∀ (b : BestFix) (f : GpsFix), b.accuracy ≤ MAX_ACCEPTABLE_ACCURACY →
      isNearSurakarta f.lat f.lng = true → f.accuracy > 10000 →
      onLocationFoundStep (some b) f = ⟨some b, true, true⟩) ∧
    (∀ f : GpsFix, isNearSurakarta f.lat f.lng = true → f.accuracy > 10000 →
      onLocationFoundStep none f = ⟨none, false, true⟩) ∧
    (∀ (b : BestFix) (f : GpsFix), b.accuracy ≤ f.accuracy →
      processFix (some b) f = some b) := by
  refine ⟨?_, ?_, ?_, ?_⟩
  · intro fs b h
    exact processFixes_bound fs none (by simp) b (by simp [h])
  · intro b f hb hreg hacc
    have hlow : isLowAccuracy f.accuracy = true := by
      simp [isLowAccuracy]; exact_mod_cast hacc
    have hblt : b.accuracy < f.accuracy :=
      lt_of_le_of_lt hb (lt_trans (by norm_num [MAX_ACCEPTABLE_ACCURACY]) hacc)
    simp [onLocationFoundStep, hreg, hlow, hblt]
  · intro f hreg hacc
    have hlow : isLowAccuracy f.accuracy = true := by
      simp [isLowAccuracy]; exact_mod_cast hacc
    simp [onLocationFoundStep, hreg, hlow]
  · intro b f h
    have h2 : ¬ f.accuracy < b.accuracy := not_lt.mpr h
    unfold processFix onLocationFoundStep
    by_cases h1 : (isNearSurakarta f.lat f.lng && isLowAccuracy f.accuracy) = true
    · by_cases hb2 : b.accuracy < f.accuracy <;> simp [h1, hb2]
    · by_cases h3 : isUnacceptableAccuracy f.accuracy = true
      · by_cases hb2 : b.accuracy < f.accuracy <;> simp [h1, h3, hb2]
      · simp [h1, h3, h2]

/-- Closed witness for `defaultLocation_lowAccuracy_rejection`: the spec's own
scenario — a 15000 m-accuracy fix inside the default-location box with no
prior best fix is accepted (not blocked) but flagged low-confidence, and the
same fix is blocked once a 100 m best fix exists. -/
theorem defaultLocation_lowAccuracy_rejection_witness :
    onLocationFoundStep none ⟨-755/100, 11085/100, 15000⟩ = ⟨none, false, true⟩ ∧
    onLocationFoundStep (some ⟨-7, 110, 100⟩) ⟨-755/100, 11085/100, 15000⟩ =
      ⟨some ⟨-7, 110, 100⟩, true, true⟩ :=
  ⟨defaultLocation_lowAccuracy_rejection.2.2.1 ⟨-755/100, 11085/100, 15000⟩
      (by norm_num [isNearSurakarta]) (by norm_num),
   defaultLocation_lowAccuracy_rejection.2.1 ⟨-7, 110, 100⟩ ⟨-755/100, 11085/100, 15000⟩
      (by norm_num [MAX_ACCEPTABLE_ACCURACY]) (by norm_num [isNearSurakarta]) (by norm_num)⟩

/-! ## MicrophoneLifecycle (src/unnamed/part_002)

Global flags: `isListening` (line 50 area), `recognition._stopped`,
`hasUserInteraction`, `isNavigating` (line 53).  `recognition.onend` is at
lines 1335-1366; `startTurnByTurnNavigation` at lines 2394-2445. -/

/-- The microphone-lifecycle flags of the source. -/
structure MicState where
  isListening : Bool
  stopped : Bool
  hasUserInteraction : Bool
  isNavigating : Bool
  deriving DecidableEq, Repr

/-- `startTurnByTurnNavigation()` (lines 2394-2445), abstracted over whether
`route` and `currentUserPosition` are non-null.  Returns the new state and
whether a spoken error was issued.  With both present, the synchronous part
sets `recognition._stopped = true` (line 2411) and stops listening (lines
2421-2425); `isNavigating = true` (line 2440) fires inside the announcement
callback chain — the net effect of the call is modelled atomically. -/
def startTurnByTurnNavigation (s : MicState) (hasRoute hasPos : Bool) :
    MicState × Bool :=
  if !hasRoute then (s, true)       -- lines 2395-2399: spoken error, no change
  else if !hasPos then (s, true)    -- lines 2401-2405: spoken error, no change
  else ({ s with stopped := true, isListening := false, isNavigating := true }, false)

/-- `recognition.onend` (lines 1335-1366): sets `isListening = false` (line
1337), then schedules the 1000 ms auto-restart timer only when
`!isListening && !recognition._stopped && hasUserInteraction && !isNavigating`
(line 1345).  Returns the new state and whether a timer was scheduled. -/
def onendStep (s : MicState) : MicState × Bool :=
  let s' := { s with isListening := false }
  (s', !s'.isListening && !s'.stopped && s'.hasUserInteraction && !s'.isNavigating)

/-- The body of the auto-restart timer (lines 1347-1362): re-validates the
same guard before calling `recognition.start()`.  Returns the new state and
whether `recognition.start()` was called. -/
def restartTimerStep (s : MicState) : MicState × Bool :=
  if !s.isListening && !s.stopped && s.hasUserInteraction && !s.isNavigating then
    ({ s with isListening := true }, true)
  else
    (s, false)

/-- Asynchronous microphone events available without a voice command: a
recognition `end` event, or the firing of a previously scheduled auto-restart
timer. -/
inductive MicEvent where
  | recEnd
  | restartTimer
  deriving DecidableEq, Repr

/-- One microphone event; the `Bool` records whether `recognition.start()` was
called while handling it. -/
def micStep (s : MicState) : MicEvent → MicState × Bool
  | .recEnd => ((onendStep s).1, false)
  | .restartTimer => restartTimerStep s

/-- A sequence of microphone events; the `Bool` records whether
`recognition.start()` was called at any point. -/
def runMicEvents (s : MicState) : List MicEvent → MicState × Bool
  | [] => (s, false)
  | e :: es =>
    ((runMicEvents (micStep s e).1 es).1,
      (micStep s e).2 || (runMicEvents (micStep s e).1 es).2)

lemma micStep_of_stopped (s : MicState) (e : MicEvent)
    (hs : s.stopped = true) (hl : s.isListening = false) :
    (micStep s e).1.stopped = true ∧ (micStep s e).1.isListening = false ∧
      (micStep s e).2 = false := by
  cases e with
  | recEnd => simp [micStep, onendStep, hs]
  | restartTimer => simp [micStep, restartTimerStep, hs, hl]

lemma runMicEvents_of_stopped (es : List MicEvent) :
    ∀ s : MicState, s.stopped = true → s.isListening = false →
      (runMicEvents s es).1.stopped = true ∧
      (runMicEvents s es).1.isListening = false ∧
      (runMicEvents s es).2 = false := by
  induction es with
  | nil => intro s hs hl; exact ⟨hs, hl, rfl⟩
  | cons e es ih =>
    intro s hs hl
    obtain ⟨h1, h2, h3⟩ := micStep_of_stopped s e hs hl
    obtain ⟨g1, g2, g3⟩ := ih (micStep s e).1 h1 h2
    exact ⟨g1, g2, by simp [runMicEvents, h3, g3]⟩

lemma micStep_of_navigating (s : MicState) (e : MicEvent) (hn : s.isNavigating = true) :
    (micStep s e).1.isNavigating = true ∧ (micStep s e).2 = false ∧
      ((micStep s e).1.isListening = true → s.isListening = true) := by
  cases e with
  | recEnd => simp [micStep, onendStep, hn]
  | restartTimer => simp [micStep, restartTimerStep, hn]

lemma runMicEvents_of_navigating (es : List MicEvent) :
    ∀ s : MicState, s.isNavigating = true →
      (runMicEvents s es).1.isNavigating = true ∧
      (runMicEvents s es).2 = false ∧
      ((runMicEvents s es).1.isListening = true → s.isListening = true) := by
  induction es with
  | nil => intro s hn; exact ⟨hn, rfl, fun h => h⟩
  | cons e es ih =>
    intro s hn
    obtain ⟨h1, h2, h3⟩ := micStep_of_navigating s e hn
    obtain ⟨g1, g2, g3⟩ := ih (micStep s e).1 h1
    exact ⟨g1, by simp [runMicEvents, h2, g2], fun h => h3 (g3 h)⟩

/-- **C1.** While `isNavigating` is true, the recognition `end` handler never
auto-restarts the microphone: for every state with `isNavigating == true` and
every sequence of recognition `end` events and auto-restart timer firings,
`recognition.start()` is never called and the listening state is never
entered anew; in particular this holds after a `StartNavigation` command is
processed with a route and a position present, where additionally
`recognition._stopped` remains set.  Only the explicit `Activate` handler
(lines 2169-2219), which is not among these events, clears `_stopped` and
restarts recognition. -/
theorem navigation_blocks_mic_autorestart (s : MicState) (es : List MicEvent) :
    (s.isNavigating = true →
      (runMicEvents s es).2 = false ∧
      ((runMicEvents s es).1.isListening = true → s.isListening = true)) ∧
    (runMicEvents (startTurnByTurnNavigation s true true).1 es).2 = false ∧
    (runMicEvents (startTurnByTurnNavigation s true true).1 es).1.isListening = false ∧
    (runMicEvents (startTurnByTurnNavigation s true true).1 es).1.stopped = true := by
  have h := runMicEvents_of_stopped es (startTurnByTurnNavigation s true true).1
    (by simp [startTurnByTurnNavigation]) (by simp [startTurnByTurnNavigation])
  refine ⟨fun hn => ?_, h.2.2, h.2.1, h.1⟩
  have g := runMicEvents_of_navigating es s hn
  exact ⟨g.2.1, g.2.2⟩

/-- Closed witness for `navigation_blocks_mic_autorestart`: a navigating,
silenced state stays silent across an `end` event and a stray timer firing. -/
theorem navigation_blocks_mic_autorestart_witness :
    (runMicEvents ⟨false, true, true, true⟩ [.recEnd, .restartTimer]).2 = false ∧
    ((runMicEvents ⟨false, true, true, true⟩ [.recEnd, .restartTimer]).1.isListening = true →
      (⟨false, true, true, true⟩ : MicState).isListening = true) :=
  (navigation_blocks_mic_autorestart ⟨false, true, true, true⟩ [.recEnd, .restartTimer]).1 rfl

/-- The `routesfound` handler shared shape (lines 754-760, 822-830, 988-994):
each of the three handlers unconditionally executes
`isNavigating = false; // Not navigating yet - wait for user command`
together with `announcedInstructions = []` and
`lastAnnouncedInstruction = null`.  Only the `isNavigating` write is visible
in `MicState`. -/
def routesfoundStep (s : MicState) : MicState :=
  { s with isNavigating := false }

/-- **C2.** (1) `startTurnByTurnNavigation` with a missing route or missing
position issues a spoken error and leaves the state unchanged; (2) with both
present it sets `isNavigating`; (3) **but** the `routesfound` handler — which
runs on every route recomputation, in particular after `updateRoute` calls
`route.setWaypoints` when a position update moves the start by more than
0.0001° during navigation (lines 593-595, 1004-1022) — unconditionally clears
`isNavigating`, contradicting the claim that only a destination change or app
reset clears it. -/
theorem isNavigating_set_and_cleared :
    (∀ (s : MicState) (hasPos : Bool), startTurnByTurnNavigation s false hasPos = (s, true)) ∧
    (∀ s : MicState, startTurnByTurnNavigation s true false = (s, true)) ∧
    (∀ s : MicState, (startTurnByTurnNavigation s true true).1.isNavigating = true) ∧
    (∀ s : MicState, (routesfoundStep s).isNavigating = false) := by
  refine ⟨?_, ?_, ?_, ?_⟩ <;> intros <;> simp [startTurnByTurnNavigation, routesfoundStep]

/-! ## RouteEngine: `updateRoute` with an existing route
(src/unnamed/part_002, lines 866-1035) -/

/-- The two waypoints of a route, `[start, end]`. -/
structure Waypoints where
  startLat : ℚ
  startLng : ℚ
  endLat : ℚ
  endLng : ℚ
  deriving DecidableEq, Repr

/-- Line 926: `const startChanged = startLatDiff > 0.0001 || startLngDiff > 0.0001;`. -/
def startChanged (cur new : Waypoints) : Bool :=
  |cur.startLat - new.startLat| > 1/10000 || |cur.startLng - new.startLng| > 1/10000

/-- Line 927: `const endChanged = endLatDiff > 0.001 || endLngDiff > 0.001;`. -/
def endChanged (cur new : Waypoints) : Bool :=
  |cur.endLat - new.endLat| > 1/1000 || |cur.endLng - new.endLng| > 1/1000

/-- What `updateRoute` does with an existing route. -/
inductive RouteAction where
  /-- Lines 942-1003: `map.removeControl(route)` and a brand-new
  `L.Routing.control` is created. -/
  | rebuild
  /-- Lines 1004-1022: `route.setWaypoints([newStart, newEnd])` in place. -/
  | setWaypoints
  /-- Lines 1023-1025: waypoints unchanged, skip update. -/
  | noChange
  deriving DecidableEq, Repr

/-- The decision logic of `updateRoute` for an existing route (lines 918-1026)
together with the value of `lastRouteHash` after the call: no branch of
`updateRoute` assigns `lastRouteHash` (its only writers are the first-creation
`routesfound` handler, line 849, and `updateDestination`, line 2813). -/
def updateRouteStep (cur new : Waypoints) (lastRouteHash : Option String) :
    RouteAction × Option String :=
  if endChanged cur new then (.rebuild, lastRouteHash)
  else if startChanged cur new then (.setWaypoints, lastRouteHash)
  else (.noChange, lastRouteHash)

/-- **C7 counterexample.** Destination moved by 0.002° (> 0.001, ≈ 222 m) with
a recorded route hash: `updateRoute` rebuilds the route but does *not* reset
the route hash — it stays `some "h"`, refuting "the route hash is reset". -/
theorem updateRoute_rebuild_keeps_hash :
    updateRouteStep ⟨0, 0, 10, 10⟩ ⟨0, 0, 10 + 2/1000, 10⟩ (some "h") =
      (.rebuild, some "h") ∧ (some "h" : Option String) ≠ none := by
  constructor
  · have he : endChanged ⟨0, 0, 10, 10⟩ ⟨0, 0, 10 + 2/1000, 10⟩ = true := by
      have h1 : |(10 : ℚ) - (10 + 2/1000)| = 2/1000 := by
        rw [show (10 : ℚ) - (10 + 2/1000) = -(2/1000) from by ring, abs_neg,
          abs_of_pos (by norm_num : (0 : ℚ) < 2/1000)]
      simp only [endChanged, h1]
      norm_num
    simp [updateRouteStep, he]
  · simp

/-- **C7 (amended).** For every call of `updateRoute` with an existing route:
if the destination moved by more than 0.001° in latitude or longitude, the old
control is removed and a brand-new route is created, while `lastRouteHash` is
left unchanged (it is reset only by the destination-change flow through
`updateDestination`); if only the start moved by more than 0.0001°, the
waypoints are replaced in place via `setWaypoints` without a rebuild and
without re-announcing; if neither threshold is exceeded, nothing changes. -/
theorem updateRoute_threshold_behaviour (cur new : Waypoints) (h : Option String) :
    (endChanged cur new = true →
      updateRouteStep cur new h = (.rebuild, h)) ∧
    (endChanged cur new = false → startChanged cur new = true →
      updateRouteStep cur new h = (.setWaypoints, h)) ∧
    (endChanged cur new = false → startChanged cur new = false →
      updateRouteStep cur new h = (.noChange, h)) := by
  refine ⟨fun he => ?_, fun he hs => ?_, fun he hs => ?_⟩
  · simp [updateRouteStep, he]
  · simp [updateRouteStep, he, hs]
  · simp [updateRouteStep, he, hs]

/-- Closed witness for `updateRoute_threshold_behaviour`: a start moved by
0.0002° with an unchanged destination yields an in-place `setWaypoints`. -/
theorem updateRoute_threshold_behaviour_witness :
    updateRouteStep ⟨0, 0, 10, 10⟩ ⟨2/10000, 0, 10, 10⟩ (some "h") =
      (.setWaypoints, some "h") :=
  (updateRoute_threshold_behaviour ⟨0, 0, 10, 10⟩ ⟨2/10000, 0, 10, 10⟩ (some "h")).2.1
    (by simp only [endChanged]; norm_num)
    (by
      have h1 : |(0 : ℚ) - 2/10000| = 2/10000 := by
        rw [show (0 : ℚ) - 2/10000 = -(2/10000) from by ring, abs_neg,
          abs_of_pos (by norm_num : (0 : ℚ) < 2/10000)]
      simp only [startChanged, h1]
      norm_num)

/-! ## VoiceCommandInterpreter: `handleVoiceCommand`
(src/unnamed/part_002, lines 2155-2376) and `extractLocation` (lines 2572-2587)

Strings are modelled as `List Char` so that every operation reduces in the
kernel. -/

/-- JavaScript `\s` whitespace as relevant here (space, tab, LF, CR, FF, VT);
also the characters removed by `String.prototype.trim`. -/
def isJsSpace (c : Char) : Bool :=
  c = ' ' || c = '\t' || c = '\n' || c = '\r' || c = '\x0b' || c = '\x0c'

/-- `s.trim()`: drop whitespace from both ends. -/
def trimChars (cs : List Char) : List Char :=
  ((cs.dropWhile isJsSpace).reverse.dropWhile isJsSpace).reverse

/-- The characters removed by `replace(/[.,;:!?]/g, '')` (line 2160). -/
def isStrippedPunct (c : Char) : Bool :=
  c = '.' || c = ',' || c = ';' || c = ':' || c = '!' || c = '?'

/-- Lines 2157-2160: `command = transcript.toLowerCase().trim()` and
`cleanCommand = command.replace(/[.,;:!?]/g, '').trim()`. -/
def cleanCommand (transcript : List Char) : List Char :=
  trimChars ((trimChars (transcript.map Char.toLower)).filter (fun c => !isStrippedPunct c))

/-- `cs` starts with the character sequence `p` (JS `String.prototype.startsWith`). -/
def listStartsWith : List Char → List Char → Bool
  | _, [] => true
  | [], _ :: _ => false
  | c :: cs, p :: ps => c = p && listStartsWith cs ps

/-- Line 2169: the activation phrases compared with `===` against `cleanCommand`. -/
def activationPhrases : List (List Char) :=
  ["halo".data, "hello".data, "aktivasi".data, "activate".data,
   "buka mikrofon".data, "aktifkan".data]

/-- Lines 2224-2231: `routeNumberMap`, keyed by the Indonesian words and the
digit strings `'1'`-`'6'`; any other key is `undefined`. -/
def routeNumberMap (arg : List Char) : Option ℕ :=
  if arg = "satu".data || arg = "1".data then some 1
  else if arg = "dua".data || arg = "2".data then some 2
  else if arg = "tiga".data || arg = "3".data then some 3
  else if arg = "empat".data || arg = "4".data then some 4
  else if arg = "lima".data || arg = "5".data then some 5
  else if arg = "enam".data || arg = "6".data then some 6
  else none

/-- The capture group of `/^rute\s+(satu|dua|tiga|empat|lima|enam|\d+)$/`
(line 2234): after the literal `rute` there must be at least one whitespace
character, and the remainder — the capture — must be one of the six words or a
non-empty digit string, extending to the end of the input. -/
def matchRouteCapture (cs : List Char) : Option (List Char) :=
  match cs with
  | 'r' :: 'u' :: 't' :: 'e' :: rest =>
    if (rest.takeWhile isJsSpace).isEmpty then none
    else
      let arg := rest.dropWhile isJsSpace
      if (["satu".data, "dua".data, "tiga".data, "empat".data, "lima".data,
            "enam".data].contains arg) || (!arg.isEmpty && arg.all Char.isDigit) then
        some arg
      else none
  | _ => none

/-- The capture group of `/^rute\s*(\d+)$/` (line 2247): optional whitespace
after `rute`, then a non-empty digit string to the end. -/
def matchRouteNumberCapture (cs : List Char) : Option (List Char) :=
  match cs with
  | 'r' :: 'u' :: 't' :: 'e' :: rest =>
    let arg := rest.dropWhile isJsSpace
    if !arg.isEmpty && arg.all Char.isDigit then some arg else none
  | _ => none

/-- `parseInt` on a non-empty decimal digit string. -/
def parseDigits (ds : List Char) : ℕ :=
  ds.foldl (fun n c => 10 * n + (c.toNat - '0'.toNat)) 0

/-- The decisions reached by the front portion of `handleVoiceCommand`
(activation check, line 2169; route selection, lines 2234-2259). -/
inductive VoiceDecision where
  /-- Line 2169-2219: microphone activation. -/
  | activate
  /-- `handleRouteCommand(routeId)` called (lines 2241, 2252). -/
  | selectRoute (id : ℕ)
  /-- Line 2255: `speakText('Rute hanya tersedia dari Rute Satu sampai Rute
  Enam', ...)`; no route command issued. -/
  | rangeError
  deriving DecidableEq, Repr

/-- Lines 2246-2259: the fallback `/^rute\s*(\d+)$/` match reached when the
first route pattern did not decide; `none` means the handler continues to the
create-route / navigation / city stages. -/
def routeNumberFallback (clean : List Char) : Option VoiceDecision :=
  match matchRouteNumberCapture clean with
  | some ds =>
    let id := parseDigits ds
    if 1 ≤ id ∧ id ≤ 6 then some (.selectRoute id) else some .rangeError
  | none => none

/-- The front portion of `handleVoiceCommand` (lines 2155-2259): the
activation check, then `/^rute\s+(...)$/` with the `routeNumberMap` lookup
(falling through when the lookup is `undefined`, line 2239), then
`/^rute\s*(\d+)$/` with the 1-6 range check.  `none` means the transcript
flows on to the later stages of the handler. -/
def classifyFront (transcript : List Char) : Option VoiceDecision :=
  let clean := cleanCommand transcript
  if activationPhrases.contains clean then some .activate
  else
    match matchRouteCapture clean with
    | some arg =>
      match routeNumberMap arg with
      | some id => some (.selectRoute id)
      | none => routeNumberFallback clean
    | none => routeNumberFallback clean

/-- **C8.** `"rute satu"` and `"rute 1"` map to the identical
`SelectRoute(1)` decision, and likewise for the words dua-enam versus the
digits 2-6; every transcript `"rute N"` with a single digit `N` outside 1-6
produces the spoken range error and no route-selection command. -/
theorem ruteSelection_word_digit_equivalence :
    (classifyFront "rute satu".data = some (.selectRoute 1) ∧
      classifyFront "rute 1".data = some (.selectRoute 1)) ∧
    (classifyFront "rute dua".data = some (.selectRoute 2) ∧
      classifyFront "rute 2".data = some (.selectRoute 2)) ∧
    (classifyFront "rute tiga".data = some (.selectRoute 3) ∧
      classifyFront "rute 3".data = some (.selectRoute 3)) ∧
    (classifyFront "rute empat".data = some (.selectRoute 4) ∧
      classifyFront "rute 4".data = some (.selectRoute 4)) ∧
    (classifyFront "rute lima".data = some (.selectRoute 5) ∧
      classifyFront "rute 5".data = some (.selectRoute 5)) ∧
    (classifyFront "rute enam".data = some (.selectRoute 6) ∧
      classifyFront "rute 6".data = some (.selectRoute 6)) ∧
    (∀ c ∈ ['0', '7', '8', '9'],
      classifyFront ('r' :: 'u' :: 't' :: 'e' :: ' ' :: [c]) = some .rangeError) := by
  decide

/-- Closed witness for `ruteSelection_word_digit_equivalence`: `"rute 7"`
yields the spoken range error. -/
theorem ruteSelection_word_digit_equivalence_witness :
    classifyFront ('r' :: 'u' :: 't' :: 'e' :: ' ' :: ['7']) = some .rangeError :=
  ruteSelection_word_digit_equivalence.2.2.2.2.2.2 '7' (by decide)

/-- Line 2574-2577: the ordered destination-prefix list of `extractLocation`. -/
def destinationPrefixes : List (List Char) :=
  ["pergi ke".data, "navigasi ke".data, "tujuan ke".data, "ke".data,
   "go to".data, "navigate to".data, "set destination".data, "go".data,
   "navigate".data, "destination".data]

/-- `extractLocation(command)` (lines 2572-2587): for the first prefix with
`command.startsWith(prefix)`, return `command.substring(prefix.length).trim()`;
with no matching prefix, return the whole command. -/
def extractLocation (command : List Char) : List Char :=
  match destinationPrefixes.find? (fun p => listStartsWith command p) with
  | some p => trimChars (command.drop p.length)
  | none => command

/-- **C10.** Destination-prefix stripping is ordered and character-based, not
word-boundary-aware: a command starting with the characters `ke` that does not
start with `pergi ke`, `navigasi ke` or `tujuan ke` loses its first two
characters and is trimmed (`"kemang"` becomes `"mang"`), and a command
matching no prefix is returned unchanged (never null). -/
theorem extractLocation_character_prefix_stripping :
    extractLocation "kemang".data = "mang".data ∧
    (∀ command : List Char,
      listStartsWith command "ke".data = true →
      listStartsWith command "pergi ke".data = false →
      listStartsWith command "navigasi ke".data = false →
      listStartsWith command "tujuan ke".data = false →
      extractLocation command = trimChars (command.drop 2)) ∧
    (∀ command : List Char,
      (∀ p ∈ destinationPrefixes, listStartsWith command p = false) →
      extractLocation command = command) := by
  refine ⟨by decide, ?_, ?_⟩
  · intro command hke h1 h2 h3
    simp only [extractLocation, destinationPrefixes, List.find?, h1, h2, h3, hke]
    rfl
  · intro command h
    have h1 := h "pergi ke".data (by simp [destinationPrefixes])
    have h2 := h "navigasi ke".data (by simp [destinationPrefixes])
    have h3 := h "tujuan ke".data (by simp [destinationPrefixes])
    have h4 := h "ke".data (by simp [destinationPrefixes])
    have h5 := h "go to".data (by simp [destinationPrefixes])
    have h6 := h "navigate to".data (by simp [destinationPrefixes])
    have h7 := h "set destination".data (by simp [destinationPrefixes])
    have h8 := h "go".data (by simp [destinationPrefixes])
    have h9 := h "navigate".data (by simp [destinationPrefixes])
    have h10 := h "destination".data (by simp [destinationPrefixes])
    simp only [extractLocation, destinationPrefixes, List.find?,
      h1, h2, h3, h4, h5, h6, h7, h8, h9, h10]

/-- Closed witness for `extractLocation_character_prefix_stripping`: the
`"kemang"` case through the universally quantified conjunct, and an unmatched
command returned unchanged. -/
theorem extractLocation_character_prefix_stripping_witness :
    extractLocation "kemang".data = trimChars ("kemang".data.drop 2) ∧
    extractLocation "bandung".data = "bandung".data :=
  ⟨extractLocation_character_prefix_stripping.2.1 "kemang".data
      (by decide) (by decide) (by decide) (by decide),
   extractLocation_character_prefix_stripping.2.2 "bandung".data (by decide)⟩

/-! ## AnnouncementQueue: `speakText` / `processAnnouncementQueue`
(src/unnamed/part_002, lines 3044-3138)

Globals: `lastSpokenMessage` (line 658, initially `''`), `isSpeaking`,
`announcementQueue`.  Event times are in milliseconds, modelled as `ℤ`. -/

/-- The mutable state touched by `speakText` and the utterance callbacks. -/
structure SpeechState where
  lastSpoken : List Char
  speaking : Bool
  queue : List (List Char)
  deriving DecidableEq, Repr

/-- `lastSpokenMessage = ''`, `isSpeaking = false`, empty queue. -/
def initialSpeechState : SpeechState := ⟨[], false, []⟩

/-- What the synchronous part of one `speakText(text, lang, priority, ...)`
call does. -/
inductive SpeechOutcome where
  /-- Lines 3052-3055: `return` on the duplicate check, nothing spoken or queued. -/
  | dropped
  /-- Lines 3058-3062: pushed onto `announcementQueue`, `return`. -/
  | queued
  /-- Lines 3064-3129: any current speech is cancelled and a new utterance is
  created and handed to `speechSynthesis.speak`. -/
  | speakScheduled
  deriving DecidableEq, Repr

/-- The synchronous body of `speakText` (lines 3045-3070). -/
def speakTextStep (s : SpeechState) (text : List Char) (priority : Bool) :
    SpeechState × SpeechOutcome :=
  if text = s.lastSpoken && !priority then (s, .dropped)
  else if s.speaking && !priority then
    ({ s with queue := s.queue ++ [text] }, .queued)
  else (s, .speakScheduled)

/-- `utterance.onstart` (lines 3089-3095): `isSpeaking = true;
lastSpokenMessage = text`. -/
def utterStartStep (s : SpeechState) (text : List Char) : SpeechState :=
  { s with speaking := true, lastSpoken := text }

/-- `utterance.onend` (lines 3104-3107): `isSpeaking = false`; it also
schedules `lastSpokenMessage = ''` 5000 ms later (lines 3109-3111). -/
def utterEndStep (s : SpeechState) : SpeechState :=
  { s with speaking := false }

/-- The timer scheduled at lines 3109-3111, firing 5000 ms after an
utterance end: `lastSpokenMessage = ''`, unconditionally. -/
def clearTimerStep (s : SpeechState) : SpeechState :=
  { s with lastSpoken := [] }

/-- The events that touch the `speakText` state. -/
inductive SpeechEvent where
  | req (text : List Char) (priority : Bool)
  | utterStart (text : List Char)
  | utterEnd
  | clearTimer
  deriving DecidableEq, Repr

/-- State transition of a single speech event. -/
def speechEventStep (s : SpeechState) : SpeechEvent → SpeechState
  | .req t p => (speakTextStep s t p).1
  | .utterStart t => utterStartStep s t
  | .utterEnd => utterEndStep s
  | .clearTimer => clearTimerStep s

/-- Run a timed event trace (times in milliseconds). -/
def runSpeech (s : SpeechState) : List (ℤ × SpeechEvent) → SpeechState
  | [] => s
  | (_, e) :: tr => runSpeech (speechEventStep s e) tr

/-- Event times are non-decreasing along the trace. -/
def chronological : List (ℤ × SpeechEvent) → Bool
  | [] => true
  | [_] => true
  | (t1, _) :: (t2, e2) :: tr => t1 ≤ t2 && chronological ((t2, e2) :: tr)

/-- Every `clearTimer` at time `τ` is the timer scheduled by an earlier
`utterEnd` at time `τ - 5000` (lines 3109-3111 schedule it with delay 5000). -/
def clearTimersValidAux : List (ℤ × SpeechEvent) → List (ℤ × SpeechEvent) → Bool
  | _, [] => true
  | past, (t, e) :: rest =>
    (match e with
     | .clearTimer => past.any (fun pe => pe.2 = .utterEnd && pe.1 = t - 5000)
     | _ => true) && clearTimersValidAux (past ++ [(t, e)]) rest

def clearTimersValid (tr : List (ℤ × SpeechEvent)) : Bool :=
  clearTimersValidAux [] tr

/-- The concrete trace refuting C9: an utterance of `"x"` ends at t = 1000 and
schedules a clear for t = 6000; `"a"` is requested, started and ended at
t = 2000-3000; the pending clear from `"x"` wipes `lastSpokenMessage` at
t = 6000, only 3000 ms after `"a"` finished. -/
def dedupCounterTrace : List (ℤ × SpeechEvent) :=
  [(0, .req "x".data false), (0, .utterStart "x".data), (1000, .utterEnd),
   (2000, .req "a".data false), (2000, .utterStart "a".data), (3000, .utterEnd),
   (6000, .clearTimer)]

/-- **C9 counterexample.**  In the well-formed trace `dedupCounterTrace`, a
second non-priority request of `"a"` arriving at t = 7000 — only 4000 ms after
the first `"a"` utterance ended at t = 3000, hence within the claimed 5-second
window — is *not* dropped: it schedules a new utterance, because the clear
timer of the earlier `"x"` utterance already erased `lastSpokenMessage` at
t = 6000. -/
theorem speakText_dedup_window_violated :
    chronological (dedupCounterTrace ++ [(7000, .req "a".data false)]) = true ∧
    clearTimersValid (dedupCounterTrace ++ [(7000, .req "a".data false)]) = true ∧
    (speakTextStep (runSpeech initialSpeechState dedupCounterTrace) "a".data false).2 =
      .speakScheduled ∧
    ((7000 : ℤ) - 3000 < 5000) := by
  refine ⟨by decide, by decide, ?_, by decide⟩
  decide

/-- **C9 (amended).**  The deduplication holds exactly while
`lastSpokenMessage` still records the text: a non-priority request whose text
equals `lastSpokenMessage` is dropped with no state change; a priority request
is never dropped by the duplicate check; the record is set when an utterance
starts and erased by the clear timer that *any* utterance end schedules for
5000 ms later — a pending timer from an earlier utterance may erase it less
than 5 seconds after the first utterance of the pair ends. -/
theorem speakText_dedup_while_recorded :
    (∀ (s : SpeechState) (text : List Char), s.lastSpoken = text →
      speakTextStep s text false = (s, .dropped)) ∧
    (∀ (s : SpeechState) (text : List Char),
      (speakTextStep s text true).2 ≠ .dropped) ∧
    (∀ (s : SpeechState) (text : List Char),
      (utterStartStep s text).lastSpoken = text) ∧
    (∀ s : SpeechState, (clearTimerStep s).lastSpoken = []) := by
  refine ⟨?_, ?_, ?_, ?_⟩
  · intro s text h
    simp [speakTextStep, h]
  · intro s text
    by_cases hsp : s.speaking <;> simp [speakTextStep, hsp]
  · intro s text; rfl
  · intro s; rfl

/-- Closed witness for `speakText_dedup_while_recorded`: a concrete state that
recorded `"a"` drops a second non-priority `"a"`. -/
theorem speakText_dedup_while_recorded_witness :
    speakTextStep ⟨"a".data, false, []⟩ "a".data false = (⟨"a".data, false, []⟩, .dropped) :=
  speakText_dedup_while_recorded.1 ⟨"a".data, false, []⟩ "a".data rfl

/-! ## InstructionTracker: `announceNextDirection`
(src/unnamed/part_002, lines 3404-3485) -/

/-- JavaScript `Math.round`: round half toward positive infinity. -/
def jsRound (q : ℚ) : ℤ := ⌊q + 1/2⌋

/-- `cs` contains `sub` as a contiguous subsequence (JS `String.prototype.includes`). -/
def listContainsSub : List Char → List Char → Bool
  | [], sub => sub.isEmpty
  | c :: rest, sub => listStartsWith (c :: rest) sub || listContainsSub rest sub

/-- Lines 3452-3454: skip instructions whose lowercased text contains
`'head'` or `'berangkat'`. -/
def isGenericInstruction (t : List Char) : Bool :=
  listContainsSub (t.map Char.toLower) "head".data ||
    listContainsSub (t.map Char.toLower) "berangkat".data

/-- One DOM instruction row as read by `announceNextDirection`: `text` is the
instruction text after `convertInstructionToNatural`, `hasDist` is whether the
distance cell text is non-empty (line 3457), `dist` is `parseDistance` of it
(line 3458). -/
structure InstructionRow where
  text : List Char
  hasDist : Bool
  dist : ℚ
  deriving DecidableEq, Repr

/-- The announcement bookkeeping: `lastAnnouncedInstruction` and
`announcedInstructions`. -/
structure AnnounceState where
  lastAnnounced : Option (List Char)
  announced : List (List Char)
  deriving DecidableEq, Repr

/-- An announcement passed to `speakText` by `announceNextDirection`. -/
inductive Phrase where
  /-- Line 3472: `'Setelah ' + Math.round(distanceInMeters) + ' meter ' + text`. -/
  | afterMeters (n : ℤ) (text : List Char)
  /-- Line 3475: `text + ' sekarang'`. -/
  | now (text : List Char)
  deriving DecidableEq, Repr

/-- The scanning loop of `announceNextDirection` (lines 3423-3481):
`for (let i = 0; i < Math.min(5, instructionRows.length); i++)`, skipping
already-announced (line 3447) and generic (line 3452) rows, announcing the
first row with a non-empty distance cell and `0 < distance ≤ 200`
(line 3461), recording it (lines 3466-3467) and then `break` (line 3478). -/
def announceLoop (st : AnnounceState) : ℕ → List InstructionRow → AnnounceState × Option Phrase
  | _, [] => (st, none)
  | 0, _ => (st, none)
  | fuel + 1, row :: rest =>
    if row.text = [] ∨ st.lastAnnounced = some row.text ∨ row.text ∈ st.announced then
      announceLoop st fuel rest
    else if isGenericInstruction row.text then
      announceLoop st fuel rest
    else if row.hasDist then
      if 0 < row.dist ∧ row.dist ≤ 200 then
        ({ lastAnnounced := some row.text, announced := st.announced ++ [row.text] },
          some (if row.dist ≥ 2 then .afterMeters (jsRound row.dist) row.text
                else .now row.text))
      else announceLoop st fuel rest
    else announceLoop st fuel rest

/-- `announceNextDirection()` with the entry guard of line 3406
(`voiceDirectionsEnabled && route && isNavigating && currentRouteData &&
currentUserPosition`) collapsed into `enabled`. -/
def announceNextDirection (enabled : Bool) (st : AnnounceState)
    (rows : List InstructionRow) : AnnounceState × Option Phrase :=
  if enabled then announceLoop st 5 rows else (st, none)

/-- A row that the loop body would announce from state `st`. -/
def Qualifies (st : AnnounceState) (row : InstructionRow) : Prop :=
  row.text ≠ [] ∧ st.lastAnnounced ≠ some row.text ∧ row.text ∉ st.announced ∧
    isGenericInstruction row.text = false ∧ row.hasDist = true ∧
    0 < row.dist ∧ row.dist ≤ 200

instance (st : AnnounceState) (row : InstructionRow) : Decidable (Qualifies st row) := by
  unfold Qualifies; infer_instance

/-- **C6 counterexample.**  Two unannounced turn instructions are both inside
the (0, 200] window on the same update, but the loop `break`s after the first:
`"belok kanan"` satisfies the announcement condition at this update and is
nevertheless not announced (and not recorded). -/
theorem announce_breaks_after_first_qualifying :
    (announceNextDirection true ⟨none, []⟩
        [⟨"belok kiri".data, true, 100⟩, ⟨"belok kanan".data, true, 150⟩]).1.announced =
      ["belok kiri".data] ∧
    Qualifies ⟨none, []⟩ ⟨"belok kanan".data, true, 150⟩ ∧
    "belok kanan".data ∉
      (announceNextDirection true ⟨none, []⟩
        [⟨"belok kiri".data, true, 100⟩, ⟨"belok kanan".data, true, 150⟩]).1.announced := by
  refine ⟨by decide, by decide, by decide⟩

lemma announceLoop_cons (st : AnnounceState) (n : ℕ) (row : InstructionRow)
    (rest : List InstructionRow) :
    announceLoop st (n + 1) (row :: rest) =
      if row.text = [] ∨ st.lastAnnounced = some row.text ∨ row.text ∈ st.announced then
        announceLoop st n rest
      else if isGenericInstruction row.text then
        announceLoop st n rest
      else if row.hasDist then
        if 0 < row.dist ∧ row.dist ≤ 200 then
          ({ lastAnnounced := some row.text, announced := st.announced ++ [row.text] },
            some (if row.dist ≥ 2 then .afterMeters (jsRound row.dist) row.text
                  else .now row.text))
        else announceLoop st n rest
      else announceLoop st n rest := rfl

lemma announceLoop_none_of_no_qualifying (st : AnnounceState) :
    ∀ (fuel : ℕ) (rows : List InstructionRow),
      (∀ row ∈ rows.take fuel, ¬ Qualifies st row) →
      announceLoop st fuel rows = (st, none) := by
  intro fuel
  induction fuel with
  | zero => intro rows _; cases rows <;> rfl
  | succ n ih =>
    intro rows h
    cases rows with
    | nil => rfl
    | cons row rest =>
      have hrow : ¬ Qualifies st row := h row (by simp)
      have hrest : ∀ r ∈ rest.take n, ¬ Qualifies st r := by
        intro r hr
        exact h r (by simp [List.take_cons]; right; exact hr)
      have ihr := ih rest hrest
      rw [announceLoop_cons]
      by_cases h1 : row.text = [] ∨ st.lastAnnounced = some row.text ∨ row.text ∈ st.announced
      · simpa [h1] using ihr
      · by_cases h2 : isGenericInstruction row.text = true
        · simpa [h1, h2] using ihr
        · by_cases h3 : row.hasDist = true
          · have h4 : ¬ (0 < row.dist ∧ row.dist ≤ 200) := by
              intro hc
              push_neg at h1
              exact hrow ⟨h1.1, h1.2.1, h1.2.2, by simpa using h2, h3, hc.1, hc.2⟩
            simpa [h1, h2, h3, h4] using ihr
          · simpa [h1, h2, h3] using ihr

lemma announceLoop_skips_nonqualifying (st : AnnounceState) (r : InstructionRow)
    (hr : ¬ Qualifies st r) (n : ℕ) (rest : List InstructionRow) :
    announceLoop st (n + 1) (r :: rest) = announceLoop st n rest := by
  rw [announceLoop_cons]
  by_cases h1 : r.text = [] ∨ st.lastAnnounced = some r.text ∨ r.text ∈ st.announced
  · simp [h1]
  · by_cases h2 : isGenericInstruction r.text = true
    · simp [h1, h2]
    · by_cases h3 : r.hasDist = true
      · have h4 : ¬ (0 < r.dist ∧ r.dist ≤ 200) := by
          intro hc
          push_neg at h1
          exact hr ⟨h1.1, h1.2.1, h1.2.2, by simpa using h2, h3, hc.1, hc.2⟩
        simp [h1, h2, h3, h4]
      · simp [h1, h2, h3]

/-- **C6 (amended).**  On each update at most one instruction is announced:
if no row among the first five qualifies, nothing is announced and the
bookkeeping is unchanged; otherwise exactly the *first* qualifying row is
announced and recorded, with the `'Setelah N meter'` phrasing for a remaining
distance ≥ 2 m (N = `Math.round`) and the `'sekarang'` phrasing below 2 m.
Rows recorded in `announcedInstructions` never qualify again. -/
theorem announce_first_qualifying_once (st : AnnounceState) (rows : List InstructionRow) :
    ((∀ row ∈ rows.take 5, ¬ Qualifies st row) →
      announceNextDirection true st rows = (st, none)) ∧
    (∀ (pre : List InstructionRow) (row : InstructionRow) (post : List InstructionRow),
      rows = pre ++ row :: post → pre.length < 5 →
      (∀ r ∈ pre, ¬ Qualifies st r) → Qualifies st row →
      announceNextDirection true st rows =
        ({ lastAnnounced := some row.text, announced := st.announced ++ [row.text] },
          some (if row.dist ≥ 2 then .afterMeters (jsRound row.dist) row.text
                else .now row.text))) ∧
    (∀ (st' : AnnounceState) (row : InstructionRow), row.text ∈ st'.announced →
      ¬ Qualifies st' row) := by
  refine ⟨?_, ?_, ?_⟩
  · intro h
    simpa [announceNextDirection] using announceLoop_none_of_no_qualifying st 5 rows h
  · intro pre row post hrows hlen hpre hrow
    subst hrows
    simp only [announceNextDirection, if_pos]
    have key : ∀ (fuel : ℕ) (pre : List InstructionRow), pre.length < fuel →
        (∀ r ∈ pre, ¬ Qualifies st r) →
        announceLoop st fuel (pre ++ row :: post) =
          ({ lastAnnounced := some row.text, announced := st.announced ++ [row.text] },
            some (if row.dist ≥ 2 then .afterMeters (jsRound row.dist) row.text
                  else .now row.text)) := by
      intro fuel
      induction fuel with
      | zero => intro pre h; omega
      | succ n ih =>
        intro pre hlen hpre
        cases pre with
        | nil =>
          obtain ⟨q1, q2, q3, q4, q5, q6, q7⟩ := hrow
          have h1 : ¬ (row.text = [] ∨ st.lastAnnounced = some row.text ∨
              row.text ∈ st.announced) := by
            push_neg; exact ⟨q1, q2, q3⟩
          simp only [List.nil_append]
          rw [announceLoop_cons]
          simp [h1, q4, q5, q6, q7]
        | cons r pre' =>
          have hr : ¬ Qualifies st r := hpre r (by simp)
          have step := announceLoop_skips_nonqualifying st r hr n (pre' ++ row :: post)
          rw [List.cons_append, step]
          exact ih pre' (by simpa using Nat.lt_of_succ_lt_succ hlen)
            (fun x hx => hpre x (by simp [hx]))
    exact key 5 pre hlen hpre
  · intro st' row hmem hq
    exact hq.2.2.1 hmem

/-- Closed witness for `announce_first_qualifying_once`: a generic
`"berangkat"` row is skipped and the following qualifying row is announced
with the after-N-meters phrasing. -/
theorem announce_first_qualifying_once_witness :
    announceNextDirection true ⟨none, []⟩
        [⟨"berangkat ke utara".data, true, 120⟩, ⟨"belok kiri".data, true, 150⟩] =
      (⟨some "belok kiri".data, ["belok kiri".data]⟩,
        some (if (150 : ℚ) ≥ 2 then .afterMeters (jsRound 150) "belok kiri".data
              else .now "belok kiri".data)) :=
  (announce_first_qualifying_once ⟨none, []⟩
      [⟨"berangkat ke utara".data, true, 120⟩, ⟨"belok kiri".data, true, 150⟩]).2.1
    [⟨"berangkat ke utara".data, true, 120⟩] ⟨"belok kiri".data, true, 150⟩ []
    rfl (by decide) (by decide) (by decide)

/-! ## InstructionTracker: `updateRealTimeInstructions`
(src/unnamed/part_002, lines 3519-3660), with `parseDistance` (3488-3507) and
`formatDistance` (3509-3517) -/

/-- `PASSED_THRESHOLD = 50` (line 3597). -/
def PASSED_THRESHOLD : ℚ := 50

/-- `formatDistance` (lines 3510-3517) composed with `parseDistance`
(lines 3488-3507): the numeric value a rewritten distance cell reads back as.
For `m ≥ 1000` the cell shows `(m/1000).toFixed(1) + ' km'`, which
`parseDistance` multiplies by 1000 again: the value becomes
`round(m/100)·100` with ECMA `toFixed` tie-breaking (half toward +∞).
Otherwise the cell shows `Math.round(m) + ' m'`. -/
def formatParse (m : ℚ) : ℚ :=
  if m ≥ 1000 then ((jsRound (m / 100) : ℤ) : ℚ) * 100
  else ((jsRound m : ℤ) : ℚ)

/-- One instruction row of the routing table as seen by
`updateRealTimeInstructions`: `visible` is `row.style.display !== 'none'`,
`distText` the `parseDistance` value of the current distance-cell text (line
3614), `cumFallback` the entry of `instructionCumulativeDistances` used when
the parse yields 0 (lines 3617-3619). -/
structure RtRow where
  visible : Bool
  distText : ℚ
  cumFallback : ℚ
  deriving DecidableEq, Repr

/-- The per-row body of `instructionRows.forEach` (lines 3599-3648) for a row
with `rowIndex > 0`: hidden rows are skipped (line 3601); the "original"
distance is re-read from the rewritten DOM text (lines 3613-3619); the
remaining distance is `max(0, original − distanceTraveled)` (line 3634); the
cell is rewritten with `formatDistance(max(0, remaining))` (line 3638); and
the row is hidden iff `remaining < 50 && remaining ≥ 0` (lines 3641-3647). -/
def updateRowStep (distanceTraveled : ℚ) (row : RtRow) : RtRow :=
  if row.visible = false then row
  else
    let original := if row.distText = 0 then row.cumFallback else row.distText
    let remaining := max 0 (original - distanceTraveled)
    if remaining < PASSED_THRESHOLD ∧ 0 ≤ remaining then
      { visible := false, distText := formatParse (max 0 remaining),
        cumFallback := row.cumFallback }
    else
      { visible := true, distText := formatParse (max 0 remaining),
        cumFallback := row.cumFallback }

/-- The same body for `rowIndex === 0` (lines 3625-3631): the depart row uses
`remaining = max(0, −distanceTraveled)`, forced to 0 once
`distanceTraveled > 50`. -/
def updateRow0Step (distanceTraveled : ℚ) (row : RtRow) : RtRow :=
  if row.visible = false then row
  else
    let r1 := max 0 (-distanceTraveled)
    let remaining := if distanceTraveled > PASSED_THRESHOLD then 0 else r1
    if remaining < PASSED_THRESHOLD ∧ 0 ≤ remaining then
      { visible := false, distText := formatParse (max 0 remaining),
        cumFallback := row.cumFallback }
    else
      { visible := true, distText := formatParse (max 0 remaining),
        cumFallback := row.cumFallback }

/-- One call of `updateRealTimeInstructions` over the instruction rows, given
the `distanceTraveled` computed at lines 3554-3561. -/
def updateRealTimeInstructions (distanceTraveled : ℚ) : List RtRow → List RtRow
  | [] => []
  | r0 :: rest => updateRow0Step distanceTraveled r0 :: rest.map (updateRowStep distanceTraveled)

lemma jsRound_of_eq_intCast (q : ℚ) (n : ℤ) (h : q + 1/2 = (n : ℚ)) : jsRound q = n := by
  unfold jsRound
  rw [h, Int.floor_intCast]

/-- **C5.** Evaluation of the retirement logic at the failing input.  A row
whose cumulative distance from the start is 50.5 m stays visible at the first
update (`distanceTraveled = 0`), and its cell is rewritten to the *rounded*
value 51 m.  At the second update (`distanceTraveled = 0.6`), the remaining
distance per the claim's formula is `max(0, 50.5 − 0.6) = 49.9 < 50`, so the
claim requires the row to be retired — but the code recomputes the remaining
from the rewritten cell (`max(0, 51 − 0.6) = 50.4 ≥ 50`) and keeps the row
visible.  Hidden rows, by contrast, are never touched again (line 3601). -/
theorem realtime_retirement_misses_true_threshold :
    (∀ (t d c : ℚ), updateRowStep t ⟨false, d, c⟩ = ⟨false, d, c⟩) ∧
    updateRowStep 0 ⟨true, 101/2, 0⟩ = ⟨true, 51, 0⟩ ∧
    (updateRowStep (3/5) (updateRowStep 0 ⟨true, 101/2, 0⟩)).visible = true ∧
    max 0 ((101 : ℚ)/2 - 3/5) < PASSED_THRESHOLD ∧
    ¬ (max 0 ((101 : ℚ)/2 - 0) < PASSED_THRESHOLD) ∧
    ((0 : ℚ) ≤ 3/5) := by
  have hj1 : jsRound ((101 : ℚ)/2) = 51 := jsRound_of_eq_intCast _ _ (by norm_num)
  have hfp1 : formatParse ((101 : ℚ)/2) = 51 := by
    unfold formatParse
    rw [if_neg (by norm_num), hj1]
    norm_num
  have hmaxA : max (0 : ℚ) ((101 : ℚ)/2 - 0) = 101/2 := by
    rw [show (101 : ℚ)/2 - 0 = 101/2 from by norm_num]
    exact max_eq_right (by norm_num)
  have hmaxB : max (0 : ℚ) ((101 : ℚ)/2) = 101/2 := max_eq_right (by norm_num)
  have h1 : updateRowStep 0 ⟨true, 101/2, 0⟩ = ⟨true, 51, 0⟩ := by
    unfold updateRowStep
    rw [if_neg (by simp)]
    simp only [if_neg (show ¬ ((101 : ℚ)/2 = 0) from by norm_num)]
    rw [hmaxA]
    rw [if_neg (by norm_num [PASSED_THRESHOLD])]
    rw [hmaxB, hfp1]
  refine ⟨?_, h1, ?_, ?_, ?_, by norm_num⟩
  · intro t d c
    unfold updateRowStep
    rw [if_pos rfl]
  · rw [h1]
    unfold updateRowStep
    rw [if_neg (by simp)]
    simp only [if_neg (show ¬ ((51 : ℚ) = 0) from by norm_num)]
    have hmaxC : max (0 : ℚ) ((51 : ℚ) - 3/5) = 252/5 := by
      rw [show (51 : ℚ) - 3/5 = 252/5 from by norm_num]
      exact max_eq_right (by norm_num)
    rw [hmaxC]
    rw [if_neg (by norm_num [PASSED_THRESHOLD])]
  · rw [show (101 : ℚ)/2 - 3/5 = 499/10 from by norm_num,
      max_eq_right (show (0:ℚ) ≤ 499/10 from by norm_num)]
    norm_num [PASSED_THRESHOLD]
  · rw [hmaxA]
    norm_num [PASSED_THRESHOLD]

end NavSpec
